import Mathlib

/-!
Verification development for the POC repository: a challenge-response
dispute protocol coordinating a pool of TEE-backed operators.

The repository holds two near-duplicate implementations:
`src/Manager.rs` (struct `Manager`) and `src/Rsa.rs` (struct `ManagerRSA`).
Both are embedded below, each under its source struct's name.

Modelling conventions:
- Rust `String` is Lean `String`; byte strings (`Vec<u8>`, `[u8; 32]`) are
  `List Nat`, each entry one byte; `String::as_bytes`/`into_bytes` is
  `strBytes` (code points; coincides with UTF-8 on the ASCII data used here).
- `HashMap` is an association list with first-match lookup (`alookup`);
  `insert` conses (observably identical: later inserts shadow earlier ones);
  `get_mut` followed by field mutation is `updA`.
- every `panic!`, `expect` and `unwrap` in the source is the error value
  `Failure.panic msg` carrying the source's message; the embedded
  operations return `Except Failure σ`, and no source path mutates state
  before a panic, so an `.error` result leaves the caller's state as it was.
- SHA-256 (the external `sha2` crate used by Manager.rs) is an external
  collaborator; it is passed as an explicit function argument `H`.
  Rsa.rs's own hash placeholders are embedded literally (concatenation).
- the clock is an external collaborator (`SystemTime::now` in Rsa.rs, a
  placeholder constant in Manager.rs); operations that read it take `now`.
-/

/-- Bytes of a Rust string (code points; equals UTF-8 on the ASCII strings used
in this development). -/
def strBytes (s : String) : List Nat := s.toList.map Char.toNat

/-- Little-endian byte encoding on `k` bytes, as Rust's `to_le_bytes` (`k = 4`
for `u32`, `k = 16` for `u128`). -/
def uleBytes (k n : Nat) : List Nat := (List.range k).map fun i => n / 256 ^ i % 256

/-- First-match lookup in an association list (the embedding of `HashMap` get). -/
def alookup {κ α : Type} [DecidableEq κ] : List (κ × α) → κ → Option α
  | [], _ => none
  | p :: ps, k => if p.1 = k then some p.2 else alookup ps k

/-- In-place update of every binding of key `k` (the embedding of `get_mut`
followed by field mutation). -/
def updA {κ α : Type} [DecidableEq κ] (m : List (κ × α)) (k : κ) (v : α) : List (κ × α) :=
  m.map fun p => if p.1 = k then (k, v) else p

/-- `POOL_SIZE` from both source files. -/
def POOL_SIZE : Nat := 3

/-- `TIMEOUT_INTERVAL` from both source files. -/
def TIMEOUT_INTERVAL : Nat := 15

/-- The phase enum, identical in both source files. -/
inductive Phase where
  | None
  | Creation
  | Executing
  | ChallengeExecutor
  | ChallengeWatchdog
  | Crashed
deriving DecidableEq, Repr

/-- Operator record, identical in both source files. -/
structure Operator where
  initialized : Bool
  tee_signature_address : String
  tee_encryption_key : List Nat
deriving DecidableEq, Repr

/-- Error kinds of the spec's taxonomy (§7), used only by the operations that
are modelled from the spec because their code is absent from src/. -/
inductive ErrKind where
  | PoolNotFound
  | WrongPhase
  | InvalidSlot
  | DeadlineExpired
  | InvalidSignature
  | UnknownOperator
deriving DecidableEq, Repr

/-- How an embedded operation fails. `panic msg` is a Rust `panic!` (or
`expect`/`unwrap`) with the source's message: every failure site in src/ is a
panic, not a returned error value. `typed k` is a typed error of the spec's
taxonomy, used only by the spec-modelled operations. -/
inductive Failure where
  | panic (msg : String)
  | typed (kind : ErrKind)
deriving DecidableEq, Repr

/-- The `ContractInfo` record of Rsa.rs (`code_hash: [u8; 32]` is a byte list;
nothing below depends on its length). -/
structure ContractInfo where
  phase : Phase
  incremental_tx_hash : List Nat
  pool_address : Option String
  creation_operator : String
  operators : List (Option String)
  executive_operator : Nat
  code_hash : List Nat
  fallback_phase : Phase
  watchdogs_challenged : Nat
  exec_challenge_hash : List Nat
  watchdog_challenge_hash : List Nat
  challenged_watchdogs : List Nat
  deadline : Nat
deriving DecidableEq, Repr

/-- The `ManagerRSA` struct of Rsa.rs. -/
structure ManagerRSA where
  operators : List (String × Operator)
  operator_list : List String
  operator_incremental_hash : List Nat
  contracts : List (Nat × ContractInfo)
deriving DecidableEq, Repr

/-- `ManagerRSA::new`: note `operator_incremental_hash` starts EMPTY
(`vec![]`), not as a 32-byte zero hash. -/
def ManagerRSA.new : ManagerRSA :=
  { operators := [], operator_list := [], operator_incremental_hash := [], contracts := [] }

/-- `ManagerRSA::hash_incremental`: the source's placeholder chaining function,
extending the previous hash with the address bytes. -/
def ManagerRSA.hash_incremental (previous_hash : List Nat) (operator_address : String) : List Nat :=
  previous_hash ++ strBytes operator_address

/-- `ManagerRSA::hash_message`: the source's placeholder, a byte copy. -/
def ManagerRSA.hash_message (message : List Nat) : List Nat := message

/-- `ManagerRSA::verify_signature`: the source's stub, constantly `true`. -/
def ManagerRSA.verify_signature (signed_hash signature : List Nat) (signer_address : String) : Bool :=
  true

/-- `ManagerRSA::create_signed_hash`: tag, then `id.to_le_bytes()` (u32), the
incremental hash, the pool address, the code hash, then each operator in order. -/
def ManagerRSA.create_signed_hash (tag : String) (id : Nat) (incremental_hash : List Nat)
    (pool_address : String) (code_hash : List Nat) (pool_operators : List String) : List Nat :=
  pool_operators.foldl (fun acc o => acc ++ strBytes o)
    (strBytes tag ++ uleBytes 4 id ++ incremental_hash ++ strBytes pool_address ++ code_hash)

/-- The payload of `ManagerRSA::executor_response`'s verification call. The
source calls `create_signed_hash` with four arguments against its six-parameter
definition (the file does not type-check as written); the payload is modelled
from the call's own arguments, matching Manager.rs's
`calculate_executor_signed_hash`: tag, id bytes, incremental hash, response. -/
def ManagerRSA.create_signed_hash_exec (tag : String) (id : Nat) (incremental_hash : List Nat)
    (response : List Nat) : List Nat :=
  strBytes tag ++ uleBytes 4 id ++ incremental_hash ++ response

/-- `ManagerRSA::register`: duplicate address panics before any mutation;
otherwise the operator is inserted, appended to `operator_list`, and the
incremental hash is advanced (`verify_attestation` is a no-op print). -/
def ManagerRSA.register (s : ManagerRSA) (operator_address tee_sig_addr : String)
    (tee_enc_key attestation_sig : List Nat) : Except Failure ManagerRSA :=
  match alookup s.operators operator_address with
  | some _ => .error (.panic "Operator already registered!")
  | none =>
    .ok { s with
      operators := (operator_address,
        { initialized := true, tee_signature_address := tee_sig_addr,
          tee_encryption_key := tee_enc_key }) :: s.operators,
      operator_list := s.operator_list ++ [operator_address],
      operator_incremental_hash :=
        ManagerRSA.hash_incremental s.operator_incremental_hash operator_address }

/-- `ManagerRSA::init_creation`: panics if the id is live or the creation
operator unregistered; otherwise inserts a fresh `Creation`-phase contract
snapshotting the current `operator_incremental_hash`, with
`deadline = now + TIMEOUT_INTERVAL`. -/
def ManagerRSA.init_creation (now : Nat) (s : ManagerRSA) (creation_operator : String)
    (code_hash : List Nat) (free_id : Nat) : Except Failure ManagerRSA :=
  match alookup s.contracts free_id with
  | some _ => .error (.panic "Contract with this ID already exists!")
  | none =>
    match alookup s.operators creation_operator with
    | none => .error (.panic "Creation operator does not exist!")
    | some _ =>
      .ok { s with contracts := (free_id,
        { phase := .Creation,
          incremental_tx_hash := s.operator_incremental_hash,
          pool_address := none,
          creation_operator := creation_operator,
          operators := List.replicate POOL_SIZE none,
          executive_operator := 0,
          code_hash := code_hash,
          fallback_phase := .None,
          watchdogs_challenged := 0,
          exec_challenge_hash := [],
          watchdog_challenge_hash := [],
          challenged_watchdogs := List.replicate POOL_SIZE 0,
          deadline := now + TIMEOUT_INTERVAL }) :: s.contracts }

/-- `ManagerRSA::finalize_creation` generalized over the signature verifier
(the source hardwires the stub `verify_signature`; the generalization makes
the payload actually passed to the verifier observable). The body mirrors the
source line by line: unwrap the contract, build the signed hash over the
contract's SNAPSHOTTED `incremental_tx_hash`, unwrap the creation operator,
verify, then set `pool_address`, `phase = Executing` and the operator slots.
No phase and no deadline check appears in this source function, so `now` is
unread; it records the call time so time-dependent claims can be stated. -/
def ManagerRSA.finalizeCreationWith (vf : List Nat → List Nat → String → Bool) (now : Nat)
    (s : ManagerRSA) (id : Nat) (pool_address : String) (pool_operators : List String)
    (signature : List Nat) : Except Failure ManagerRSA :=
  match alookup s.contracts id with
  | none => .error (.panic "Option::unwrap on None")
  | some c =>
    let signed_hash := ManagerRSA.create_signed_hash "Creation-Attest" id
      c.incremental_tx_hash pool_address c.code_hash pool_operators
    match alookup s.operators c.creation_operator with
    | none => .error (.panic "Option::unwrap on None")
    | some cop =>
      if vf signed_hash signature cop.tee_signature_address = false then
        .error (.panic "Wrong signature for creation!")
      else
        let c2 : ContractInfo :=
          { c with
            pool_address := some pool_address,
            phase := .Executing,
            operators := pool_operators.map some }
        .ok { s with contracts := updA s.contracts id c2 }

/-- `ManagerRSA::finalize_creation`: the source function, i.e. the generalized
body applied to the stub verifier. -/
def ManagerRSA.finalize_creation (now : Nat) (s : ManagerRSA) (id : Nat) (pool_address : String)
    (pool_operators : List String) (signature : List Nat) : Except Failure ManagerRSA :=
  ManagerRSA.finalizeCreationWith ManagerRSA.verify_signature now s id pool_address
    pool_operators signature

/-- `ManagerRSA::deposit_to_contract`: unwrap the contract, require phase
`Executing`, then only print. -/
def ManagerRSA.deposit_to_contract (s : ManagerRSA) (id : Nat) (value : Nat) :
    Except Failure ManagerRSA :=
  match alookup s.contracts id with
  | none => .error (.panic "Option::unwrap on None")
  | some c =>
    if c.phase ≠ .Executing then .error (.panic "Contract is not in phase EXECUTING!")
    else .ok s

/-- `ManagerRSA::withdraw`: unwrap the contract and its `pool_address`, require
`pool_address == receiver`, then only print. NO phase check appears in the
source, and the guard compares the receiver argument (there is no caller). -/
def ManagerRSA.withdraw (s : ManagerRSA) (id blocknumber : Nat) (receiver : String)
    (value : Nat) : Except Failure ManagerRSA :=
  match alookup s.contracts id with
  | none => .error (.panic "Option::unwrap on None")
  | some c =>
    match c.pool_address with
    | none => .error (.panic "Option::unwrap on None")
    | some pa =>
      if pa ≠ receiver then .error (.panic "Sender is not the pool address!")
      else .ok s

/-- `ManagerRSA::challenge_executor`: requires phase `Executing`; moves to
`ChallengeExecutor`, restarts the deadline, resets `watchdogs_challenged` and
commits to the challenge message. -/
def ManagerRSA.challenge_executor (now : Nat) (s : ManagerRSA) (id : Nat) (message : List Nat) :
    Except Failure ManagerRSA :=
  match alookup s.contracts id with
  | none => .error (.panic "Option::unwrap on None")
  | some c =>
    if c.phase ≠ .Executing then .error (.panic "Contract is not in phase EXECUTING!")
    else
      let c2 : ContractInfo :=
        { c with
          phase := .ChallengeExecutor,
          deadline := now + TIMEOUT_INTERVAL,
          watchdogs_challenged := 0,
          exec_challenge_hash := ManagerRSA.hash_message message }
      .ok { s with contracts := updA s.contracts id c2 }

/-- `ManagerRSA::executor_response`: requires phase `ChallengeExecutor` and
`deadline ≥ now`; resolves the executive slot's operator through the registry,
verifies (stub), and returns the pool to `Executing`. -/
def ManagerRSA.executor_response (now : Nat) (s : ManagerRSA) (id : Nat)
    (response signature : List Nat) : Except Failure ManagerRSA :=
  match alookup s.contracts id with
  | none => .error (.panic "Option::unwrap on None")
  | some c =>
    if c.phase ≠ .ChallengeExecutor then
      .error (.panic "Challenge can only be answered if unresolved!")
    else if c.deadline < now then .error (.panic "Response deadline has expired!")
    else
      let signed_hash := ManagerRSA.create_signed_hash_exec "Challenge-Response" id
        c.incremental_tx_hash response
      match c.operators[c.executive_operator]? with
      | none => .error (.panic "index out of bounds")
      | some none => .error (.panic "Option::unwrap on None")
      | some (some addr) =>
        match alookup s.operators addr with
        | none => .error (.panic "Option::unwrap on None")
        | some eop =>
          if ManagerRSA.verify_signature signed_hash signature eop.tee_signature_address
              = false then
            .error (.panic "Wrong signature for executor response!")
          else
            let c2 : ContractInfo := { c with phase := .Executing }
            .ok { s with contracts := updA s.contracts id c2 }

/-- Modelled from the spec: `challenge_watchdog` is named by the spec's exposed
API (§4.2, §6) but its code is absent from src/ (only the `ContractInfo`
fields it uses exist there). Per the spec's transition table: allowed from
`Executing` or `ChallengeExecutor`, on a valid non-executive slot; saves the
current phase in `fallback_phase`, commits to the message, bumps the
per-slot and aggregate counters, restarts the deadline. -/
def ManagerRSA.challenge_watchdog (now : Nat) (s : ManagerRSA) (id slot : Nat)
    (message : List Nat) : Except Failure ManagerRSA :=
  match alookup s.contracts id with
  | none => .error (.typed .PoolNotFound)
  | some c =>
    if c.phase = .Executing ∨ c.phase = .ChallengeExecutor then
      if slot < POOL_SIZE ∧ slot ≠ c.executive_operator then
        let c2 : ContractInfo :=
          { c with
            phase := .ChallengeWatchdog,
            fallback_phase := c.phase,
            watchdog_challenge_hash := ManagerRSA.hash_message message,
            challenged_watchdogs :=
              c.challenged_watchdogs.set slot (c.challenged_watchdogs.getD slot 0 + 1),
            watchdogs_challenged := c.watchdogs_challenged + 1,
            deadline := now + TIMEOUT_INTERVAL }
        .ok { s with contracts := updA s.contracts id c2 }
      else .error (.typed .InvalidSlot)
    else .error (.typed .WrongPhase)

/-- Modelled from the spec: `watchdog_response` is named by the spec's exposed
API (§4.2, §6) but its code is absent from src/. Per the spec's transition
table: allowed from `ChallengeWatchdog` within the deadline; the disputed
slot's operator is resolved through the registry and its signature verified
(the repository's stub verifier); the phase is restored from `fallback_phase`,
which is cleared together with the watchdog challenge hash. -/
def ManagerRSA.watchdog_response (now : Nat) (s : ManagerRSA) (id slot : Nat)
    (response signature : List Nat) : Except Failure ManagerRSA :=
  match alookup s.contracts id with
  | none => .error (.typed .PoolNotFound)
  | some c =>
    if c.phase ≠ .ChallengeWatchdog then .error (.typed .WrongPhase)
    else if c.deadline < now then .error (.typed .DeadlineExpired)
    else if slot < POOL_SIZE ∧ slot ≠ c.executive_operator then
      match c.operators.getD slot none with
      | none => .error (.typed .InvalidSlot)
      | some addr =>
        match alookup s.operators addr with
        | none => .error (.typed .UnknownOperator)
        | some wop =>
          if ManagerRSA.verify_signature (ManagerRSA.hash_message response) signature
              wop.tee_signature_address = false then
            .error (.typed .InvalidSignature)
          else
            let c2 : ContractInfo :=
              { c with
                phase := c.fallback_phase,
                fallback_phase := .None,
                watchdog_challenge_hash := [] }
            .ok { s with contracts := updA s.contracts id c2 }
    else .error (.typed .InvalidSlot)

/-- Decidable equality on `Except`, so concrete runs can be checked by `decide`. -/
instance {e a : Type} [DecidableEq e] [DecidableEq a] : DecidableEq (Except e a) := fun x y =>
  match x, y with
  | .ok v, .ok w => decidable_of_iff (v = w) (by simp)
  | .ok _, .error _ => isFalse fun h => Except.noConfusion h
  | .error _, .ok _ => isFalse fun h => Except.noConfusion h
  | .error u, .error t => decidable_of_iff (u = t) (by simp)

example : ManagerRSA.new.register "a" "ta" [] []
    = .ok { operators := [("a", { initialized := true, tee_signature_address := "ta",
                                  tee_encryption_key := [] })],
            operator_list := ["a"], operator_incremental_hash := [97], contracts := [] } := by
  decide

/-- The `Contract` record of Manager.rs (`code_hash: Vec<u8>`). Its fields
coincide with Rsa.rs's `ContractInfo`; the two records are kept separate
because the two source files diverge in behaviour. -/
structure Contract where
  phase : Phase
  incremental_tx_hash : List Nat
  pool_address : Option String
  creation_operator : String
  operators : List (Option String)
  executive_operator : Nat
  code_hash : List Nat
  fallback_phase : Phase
  watchdogs_challenged : Nat
  exec_challenge_hash : List Nat
  watchdog_challenge_hash : List Nat
  challenged_watchdogs : List Nat
  deadline : Nat
deriving DecidableEq, Repr

/-- The `Manager` struct of Manager.rs. -/
structure Manager where
  contracts : List (Nat × Contract)
  operators : List (String × Operator)
  operator_incremental_hash : List Nat
deriving DecidableEq, Repr

/-- `Manager::new`: here `operator_incremental_hash` starts as the 32-byte
all-zero hash (`vec![0u8; 32]`), unlike `ManagerRSA::new`. -/
def Manager.new : Manager :=
  { contracts := [], operators := [], operator_incremental_hash := List.replicate 32 0 }

/-- `Manager::verify_signature`: the source's stub, constantly `true`. -/
def Manager.verify_signature (hash signature : List Nat) (operator : String) : Bool := true

/-- `Manager::hash_message`: SHA-256 of the message; the hash `H` is the
external `sha2` collaborator, passed explicitly. -/
def Manager.hash_message (H : List Nat → List Nat) (message : List Nat) : List Nat := H message

/-- `Manager::calculate_signed_hash`: SHA-256 over "Creation-Attest",
`id.to_le_bytes()` (u128, 16 bytes), the incremental hash, the pool address,
the code hash, then each operator in order. -/
def Manager.calculate_signed_hash (H : List Nat → List Nat) (id : Nat)
    (incremental_tx_hash : List Nat) (pool_address : String) (code_hash : List Nat)
    (pool_operators : List String) : List Nat :=
  H (pool_operators.foldl (fun acc o => acc ++ strBytes o)
    (strBytes "Creation-Attest" ++ uleBytes 16 id ++ incremental_tx_hash
      ++ strBytes pool_address ++ code_hash))

/-- `Manager::calculate_executor_signed_hash`: SHA-256 over
"Challenge-Response", the id bytes, the incremental hash and the response. -/
def Manager.calculate_executor_signed_hash (H : List Nat → List Nat) (id : Nat)
    (incremental_tx_hash : List Nat) (response : List Nat) : List Nat :=
  H (strBytes "Challenge-Response" ++ uleBytes 16 id ++ incremental_tx_hash ++ response)

/-- `Manager::init_creation`: NO guard at all — it builds a `Creation`-phase
contract (operator slots already filled from `pool_operators`, snapshot of
`operator_incremental_hash`, `deadline = now + TIMEOUT_INTERVAL`) and inserts
it under `id`, silently overwriting any live contract with that id. The
function cannot fail, so it returns the new state directly. -/
def Manager.init_creation (now : Nat) (s : Manager) (id : Nat) (creation_operator : String)
    (code_hash : List Nat) (pool_operators : List String) : Manager :=
  { s with contracts := (id,
    { phase := .Creation,
      incremental_tx_hash := s.operator_incremental_hash,
      pool_address := none,
      creation_operator := creation_operator,
      operators := pool_operators.map some,
      executive_operator := 0,
      code_hash := code_hash,
      fallback_phase := .None,
      watchdogs_challenged := 0,
      exec_challenge_hash := [],
      watchdog_challenge_hash := [],
      challenged_watchdogs := List.replicate POOL_SIZE 0,
      deadline := now + TIMEOUT_INTERVAL }) :: s.contracts }

/-- `Manager::finalize_creation`: `expect("Contract not found")`, then the
phase guard, then the deadline guard, then the signed hash over the contract's
snapshotted `incremental_tx_hash` and the (stub) signature check; on success
sets `pool_address`, `phase = Executing` and the operator slots. -/
def Manager.finalize_creation (H : List Nat → List Nat) (now : Nat) (s : Manager) (id : Nat)
    (pool_address : String) (pool_operators : List String) (signature : List Nat) :
    Except Failure Manager :=
  match alookup s.contracts id with
  | none => .error (.panic "Contract not found")
  | some c =>
    if c.phase ≠ .Creation then .error (.panic "Contract is not in the creation phase!")
    else if c.deadline < now then .error (.panic "The creation deadline has expired!")
    else
      let signed_hash := Manager.calculate_signed_hash H id c.incremental_tx_hash
        pool_address c.code_hash pool_operators
      if Manager.verify_signature signed_hash signature c.creation_operator = false then
        .error (.panic "Wrong signature for creation!")
      else
        let c2 : Contract :=
          { c with
            pool_address := some pool_address,
            phase := .Executing,
            operators := pool_operators.map some }
        .ok { s with contracts := updA s.contracts id c2 }

/-- `Manager::deposit_to_contract`: `expect("Contract not found")`, the phase
guard, then the success print unwraps `pool_address`. -/
def Manager.deposit_to_contract (s : Manager) (id : Nat) (amount : Nat) :
    Except Failure Manager :=
  match alookup s.contracts id with
  | none => .error (.panic "Contract not found")
  | some c =>
    if c.phase ≠ .Executing then .error (.panic "Contract is not in the executing phase!")
    else
      match c.pool_address with
      | none => .error (.panic "Option::unwrap on None")
      | some _ => .ok s

/-- `Manager::withdraw`: `expect("Contract not found")`, unwrap `pool_address`,
require `receiver == pool_address`, then only print. NO phase check appears in
the source, and the guard compares the receiver argument (there is no caller). -/
def Manager.withdraw (s : Manager) (id : Nat) (receiver : String) (amount : Nat) :
    Except Failure Manager :=
  match alookup s.contracts id with
  | none => .error (.panic "Contract not found")
  | some c =>
    match c.pool_address with
    | none => .error (.panic "Option::unwrap on None")
    | some pa =>
      if receiver ≠ pa then .error (.panic "Sender is not the pool address!")
      else .ok s

/-- `Manager::challenge_executor`: requires phase `Executing`; moves to
`ChallengeExecutor`, restarts the deadline and commits to the challenge
message. Unlike Rsa.rs, it does NOT touch `watchdogs_challenged`. -/
def Manager.challenge_executor (H : List Nat → List Nat) (now : Nat) (s : Manager) (id : Nat)
    (message : List Nat) : Except Failure Manager :=
  match alookup s.contracts id with
  | none => .error (.panic "Contract not found")
  | some c =>
    if c.phase ≠ .Executing then .error (.panic "Contract is not in the executing phase!")
    else
      let c2 : Contract :=
        { c with
          phase := .ChallengeExecutor,
          deadline := now + TIMEOUT_INTERVAL,
          exec_challenge_hash := Manager.hash_message H message }
      .ok { s with contracts := updA s.contracts id c2 }

/-- `Manager::executor_response`: requires phase `ChallengeExecutor` and
`deadline ≥ now`; indexes the executive slot (panic on out-of-range, unwrap on
an empty slot), verifies (stub) and returns the pool to `Executing`. -/
def Manager.executor_response (H : List Nat → List Nat) (now : Nat) (s : Manager) (id : Nat)
    (response signature : List Nat) : Except Failure Manager :=
  match alookup s.contracts id with
  | none => .error (.panic "Contract not found")
  | some c =>
    if c.phase ≠ .ChallengeExecutor then .error (.panic "No active challenge to respond to!")
    else if c.deadline < now then .error (.panic "Response deadline has expired!")
    else
      let signed_hash := Manager.calculate_executor_signed_hash H id
        c.incremental_tx_hash response
      match c.operators[c.executive_operator]? with
      | none => .error (.panic "index out of bounds")
      | some none => .error (.panic "Option::unwrap on None")
      | some (some op) =>
        if Manager.verify_signature signed_hash signature op = false then
          .error (.panic "Wrong signature for executor response!")
        else
          let c2 : Contract := { c with phase := .Executing }
          .ok { s with contracts := updA s.contracts id c2 }

/-- The successful state of an embedded operation, if any. -/
def okVal {α : Type} : Except Failure α → Option α
  | .ok a => some a
  | .error _ => none

theorem alookup_updA_self {κ α : Type} [DecidableEq κ] (m : List (κ × α)) (k : κ) (v w : α)
    (h : alookup m k = some w) : alookup (updA m k v) k = some v := by
  induction m with
  | nil => simp [alookup] at h
  | cons p ps ih =>
    rcases p with ⟨a, b⟩
    by_cases hk : a = k
    · subst hk
      simp [alookup, updA]
    · simp only [alookup, hk, if_false, updA, List.map] at h ⊢
      simpa [updA, hk] using ih (by simpa [alookup, hk] using h)

theorem alookup_cons_self {κ α : Type} [DecidableEq κ] (m : List (κ × α)) (k : κ) (v : α) :
    alookup ((k, v) :: m) k = some v := by
  simp [alookup]

/-- Registering a fresh address: the exact successor state. -/
theorem ManagerRSA.register_fresh (s : ManagerRSA) (a t : String) (k g : List Nat)
    (h : alookup s.operators a = none) :
    s.register a t k g = .ok
      { s with
        operators := (a, { initialized := true, tee_signature_address := t,
                           tee_encryption_key := k }) :: s.operators,
        operator_list := s.operator_list ++ [a],
        operator_incremental_hash :=
          ManagerRSA.hash_incremental s.operator_incremental_hash a } := by
  simp [ManagerRSA.register, h]

/-- A sequence of `register` calls, threading the state; each address doubles
as its own TEE data (the incremental hash only ever reads the address). -/
def ManagerRSA.registerAll (s : ManagerRSA) : List String → Except Failure ManagerRSA
  | [] => .ok s
  | a :: rest =>
    match s.register a a [] [] with
    | .error e => .error e
    | .ok s2 => s2.registerAll rest

/-- Registering a list of fresh, pairwise-distinct addresses succeeds and folds
`hash_incremental` over the list, starting from the current hash; the contract
store is untouched. -/
theorem ManagerRSA.registerAll_fold : ∀ (addrs : List String) (s : ManagerRSA),
    addrs.Nodup → (∀ a ∈ addrs, alookup s.operators a = none) →
    ∃ s2, s.registerAll addrs = .ok s2 ∧
      s2.operator_incremental_hash
        = addrs.foldl ManagerRSA.hash_incremental s.operator_incremental_hash ∧
      s2.contracts = s.contracts := by
  intro addrs
  induction addrs with
  | nil => exact fun s _ _ => ⟨s, rfl, rfl, rfl⟩
  | cons a rest ih =>
    intro s hnd hfresh
    have ha : alookup s.operators a = none := hfresh a (List.mem_cons_self a rest)
    have hreg := ManagerRSA.register_fresh s a a [] [] ha
    have hrest : ∀ b ∈ rest, alookup
        ({ s with
           operators := (a, { initialized := true, tee_signature_address := a,
                              tee_encryption_key := [] }) :: s.operators,
           operator_list := s.operator_list ++ [a],
           operator_incremental_hash :=
             ManagerRSA.hash_incremental s.operator_incremental_hash a } :
          ManagerRSA).operators b = none := by
      intro b hb
      have hba : a ≠ b := by
        rintro rfl
        exact (List.nodup_cons.mp hnd).1 hb
      simpa [alookup, hba] using hfresh b (List.mem_cons_of_mem a hb)
    obtain ⟨s2, h1, h2, h3⟩ := ih _ (List.nodup_cons.mp hnd).2 hrest
    refine ⟨s2, ?_, ?_, h3⟩
    · simpa [ManagerRSA.registerAll, hreg] using h1
    · simpa using h2

/-- C2: the registry's incremental hash is the iterated fold of
`hash_incremental` over the successful registrations — but from the EMPTY
initial hash of `ManagerRSA::new`, not from a 32-byte zero hash — and a
duplicate registration fails (with the source's panic, before any mutation,
so hash and operator set are left as they were). -/
theorem C2_registry_fold :
  (∀ (addrs : List String) (s : ManagerRSA), addrs.Nodup →
      (∀ a ∈ addrs, alookup s.operators a = none) →
      ∃ s2, s.registerAll addrs = .ok s2 ∧
        s2.operator_incremental_hash
          = addrs.foldl ManagerRSA.hash_incremental s.operator_incremental_hash) ∧
  (∀ addrs : List String, addrs.Nodup →
      ∃ s2, ManagerRSA.new.registerAll addrs = .ok s2 ∧
        s2.operator_incremental_hash = addrs.foldl ManagerRSA.hash_incremental []) ∧
  (∀ (s : ManagerRSA) (a t : String) (k g : List Nat) (op : Operator),
      alookup s.operators a = some op →
      s.register a t k g = .error (.panic "Operator already registered!")) := by
  refine ⟨?_, ?_, ?_⟩
  · intro addrs s hnd hfresh
    obtain ⟨s2, h1, h2, _⟩ := ManagerRSA.registerAll_fold addrs s hnd hfresh
    exact ⟨s2, h1, h2⟩
  · intro addrs hnd
    obtain ⟨s2, h1, h2, _⟩ := ManagerRSA.registerAll_fold addrs ManagerRSA.new hnd
      (fun a _ => rfl)
    exact ⟨s2, h1, h2⟩
  · intro s a t k g op h
    simp [ManagerRSA.register, h]

/-- C2, falsifying input for the claim as written: on the code, the hash after
registering the single address "a" into a fresh registry is the byte string of
"a" alone (`ManagerRSA::new` starts the chain from `vec![]`), which differs
from the claimed fold `H(0^32 ‖ "a")` that starts from a 32-byte zero hash. -/
theorem C2_counterexample :
  (okVal (ManagerRSA.new.registerAll ["a"])).map ManagerRSA.operator_incremental_hash
      = some (strBytes "a")
  ∧ ManagerRSA.hash_incremental (List.replicate 32 0) "a" ≠ strBytes "a" := by
  constructor
  · rfl
  · decide

/-- C2 demonstration at a concrete input: the general fold theorem applied to
the two-address registration ["a", "b"]. -/
theorem C2_witness :
  ∃ s2, ManagerRSA.new.registerAll ["a", "b"] = .ok s2 ∧
    s2.operator_incremental_hash
      = ["a", "b"].foldl ManagerRSA.hash_incremental [] := by
  exact C2_registry_fold.2.1 ["a", "b"] (by decide)

/-- C10: signature verification is a constant-true stub in both
implementations: the verifier accepts every input, no call of
`finalize_creation` or `executor_response` can ever fail with the
wrong-signature panic, and each of those operations returns the very same
result whatever signature byte string the caller supplies. -/
theorem C10_verification_stub :
  (∀ h sg a, Manager.verify_signature h sg a = true) ∧
  (∀ h sg a, ManagerRSA.verify_signature h sg a = true) ∧
  (∀ H now s id pa ops sg,
      Manager.finalize_creation H now s id pa ops sg
        ≠ .error (.panic "Wrong signature for creation!")) ∧
  (∀ now s id pa ops sg,
      ManagerRSA.finalize_creation now s id pa ops sg
        ≠ .error (.panic "Wrong signature for creation!")) ∧
  (∀ H now s id r sg,
      Manager.executor_response H now s id r sg
        ≠ .error (.panic "Wrong signature for executor response!")) ∧
  (∀ now s id r sg,
      ManagerRSA.executor_response now s id r sg
        ≠ .error (.panic "Wrong signature for executor response!")) ∧
  (∀ H now s id pa ops sg sg2,
      Manager.finalize_creation H now s id pa ops sg
        = Manager.finalize_creation H now s id pa ops sg2) ∧
  (∀ now s id pa ops sg sg2,
      ManagerRSA.finalize_creation now s id pa ops sg
        = ManagerRSA.finalize_creation now s id pa ops sg2) ∧
  (∀ H now s id r sg sg2,
      Manager.executor_response H now s id r sg
        = Manager.executor_response H now s id r sg2) ∧
  (∀ now s id r sg sg2,
      ManagerRSA.executor_response now s id r sg
        = ManagerRSA.executor_response now s id r sg2) := by
  refine ⟨fun h sg a => rfl, fun h sg a => rfl, ?_, ?_, ?_, ?_, ?_, ?_, ?_, ?_⟩
  · intro H now s id pa ops sg
    unfold Manager.finalize_creation
    cases halk : alookup s.contracts id with
    | none => simp
    | some c =>
      by_cases h1 : c.phase = .Creation
      · by_cases h2 : c.deadline < now
        · simp [h1, h2]
        · simp [h1, h2, Manager.verify_signature]
      · simp [h1]
  · intro now s id pa ops sg
    unfold ManagerRSA.finalize_creation ManagerRSA.finalizeCreationWith
    cases halk : alookup s.contracts id with
    | none => simp
    | some c =>
      cases hop : alookup s.operators c.creation_operator with
      | none => simp [hop]
      | some cop => simp [hop, ManagerRSA.verify_signature]
  · intro H now s id r sg
    unfold Manager.executor_response
    cases halk : alookup s.contracts id with
    | none => simp
    | some c =>
      by_cases h1 : c.phase = .ChallengeExecutor
      · by_cases h2 : c.deadline < now
        · simp [h1, h2]
        · cases hidx : c.operators[c.executive_operator]? with
          | none => simp [h1, h2, hidx]
          | some o =>
            cases o with
            | none => simp [h1, h2, hidx]
            | some op => simp [h1, h2, hidx, Manager.verify_signature]
      · simp [h1]
  · intro now s id r sg
    unfold ManagerRSA.executor_response
    cases halk : alookup s.contracts id with
    | none => simp
    | some c =>
      by_cases h1 : c.phase = .ChallengeExecutor
      · by_cases h2 : c.deadline < now
        · simp [h1, h2]
        · cases hidx : c.operators[c.executive_operator]? with
          | none => simp [h1, h2, hidx]
          | some o =>
            cases o with
            | none => simp [h1, h2, hidx]
            | some addr =>
              cases hop : alookup s.operators addr with
              | none => simp [h1, h2, hidx, hop]
              | some eop => simp [h1, h2, hidx, hop, ManagerRSA.verify_signature]
      · simp [h1]
  · intro H now s id pa ops sg sg2
    simp only [Manager.finalize_creation, Manager.verify_signature]
  · intro now s id pa ops sg sg2
    simp only [ManagerRSA.finalize_creation, ManagerRSA.finalizeCreationWith,
      ManagerRSA.verify_signature]
  · intro H now s id r sg sg2
    simp only [Manager.executor_response, Manager.verify_signature]
  · intro now s id r sg sg2
    simp only [ManagerRSA.executor_response, ManagerRSA.verify_signature]

/-- C1 (amended): in `ManagerRSA::finalize_creation` the commitment handed to
the signature verifier is `create_signed_hash` over the pool's SNAPSHOTTED
`incremental_tx_hash` (the registry epoch captured at `init_creation`) — for
an arbitrary verifier, finalization succeeds exactly when the verifier accepts
the signature over that epoch-E1 commitment — but the shipped verifier is the
constant-true stub, so with the source's `verify_signature` finalization
succeeds for EVERY signature byte string, including one computed against a
different registry epoch. -/
theorem C1_epoch_binding :
  (∀ (vf : List Nat → List Nat → String → Bool) now s id pa ops sg c cop,
      alookup s.contracts id = some c →
      alookup s.operators c.creation_operator = some cop →
      ((∃ s2, ManagerRSA.finalizeCreationWith vf now s id pa ops sg = .ok s2) ↔
        vf (ManagerRSA.create_signed_hash "Creation-Attest" id c.incremental_tx_hash pa
            c.code_hash ops) sg cop.tee_signature_address = true)) ∧
  (∀ now s id pa ops sg c cop,
      alookup s.contracts id = some c →
      alookup s.operators c.creation_operator = some cop →
      ∃ s2, ManagerRSA.finalize_creation now s id pa ops sg = .ok s2) := by
  constructor
  · intro vf now s id pa ops sg c cop h1 h2
    cases hv : vf (ManagerRSA.create_signed_hash "Creation-Attest" id c.incremental_tx_hash
        pa c.code_hash ops) sg cop.tee_signature_address with
    | false => simp [ManagerRSA.finalizeCreationWith, h1, h2, hv]
    | true => simp [ManagerRSA.finalizeCreationWith, h1, h2, hv]
  · intro now s id pa ops sg c cop h1 h2
    simp [ManagerRSA.finalize_creation, ManagerRSA.finalizeCreationWith, h1, h2,
      ManagerRSA.verify_signature]

/-- The registry epoch after registering "a" alone: the epoch a pool created
at that moment snapshots. -/
def c1epoch1 : List Nat := strBytes "a"

/-- The registry epoch after registering "a" then "b". -/
def c1epoch2 : List Nat := ManagerRSA.hash_incremental (strBytes "a") "b"

/-- A creation signature computed against epoch `c1epoch2`: the commitment
bytes for pool 1 under the LATER epoch (any honest signer for epoch 2 would
sign exactly this payload; the stub verifier accepts any bytes, so these in
particular). -/
def c1sig : List Nat :=
  ManagerRSA.create_signed_hash "Creation-Attest" 1 c1epoch2 "P" (List.replicate 32 0)
    ["a", "b", "c"]

/-- The run refuting C1 as stated: register "a" (epoch 1), create pool 1
(snapshotting epoch 1), register "b" (epoch 2), then finalize pool 1 with the
epoch-2 signature. -/
def c1run : Except Failure ManagerRSA :=
  (ManagerRSA.new.register "a" "ta" [] []).bind fun s1 =>
  (ManagerRSA.init_creation 100 s1 "a" (List.replicate 32 0) 1).bind fun s2 =>
  (s2.register "b" "tb" [] []).bind fun s3 =>
  ManagerRSA.finalize_creation 110 s3 1 "P" ["a", "b", "c"] c1sig

/-- C1, falsifying input for the claim as written: the pool snapshotted epoch
`c1epoch1`, the registry then advanced to `c1epoch2 ≠ c1epoch1`, and
`finalize_creation` with the signature computed against `c1epoch2`
nevertheless SUCCEEDS (the pool reaches `Executing`): a creation signature
bound to another epoch does finalize the pool, because the stub verifier
accepts everything. -/
theorem C1_counterexample :
  (okVal c1run).map (fun s => (alookup s.contracts 1).map fun c =>
      (c.phase, c.incremental_tx_hash)) = some (some (Phase.Executing, c1epoch1))
  ∧ c1epoch2 ≠ c1epoch1 := by
  constructor
  · rfl
  · decide

/-- The state `ManagerRSA::finalize_creation` writes on success: the pool gets
its address, phase `Executing` and the operator slots. -/
def ManagerRSA.finalizedState (s : ManagerRSA) (id : Nat) (pa : String) (ops : List String)
    (c : ContractInfo) : ManagerRSA :=
  let c2 : ContractInfo :=
    { c with
      pool_address := some pa,
      phase := .Executing,
      operators := ops.map some }
  { s with contracts := updA s.contracts id c2 }

/-- Given the contract and creation-operator lookups succeed,
`ManagerRSA::finalize_creation` always succeeds — it checks neither phase nor
deadline (shared by several claims below). -/
theorem ManagerRSA.finalize_creation_no_guard (now : Nat) (s : ManagerRSA) (id : Nat)
    (pa : String) (ops : List String) (sg : List Nat) (c : ContractInfo) (cop : Operator)
    (h1 : alookup s.contracts id = some c)
    (h2 : alookup s.operators c.creation_operator = some cop) :
    ManagerRSA.finalize_creation now s id pa ops sg
      = .ok (ManagerRSA.finalizedState s id pa ops c) := by
  simp [ManagerRSA.finalize_creation, ManagerRSA.finalizeCreationWith, h1, h2,
    ManagerRSA.verify_signature, ManagerRSA.finalizedState]

/-- C4 (amended): in Manager.rs, `finalize_creation` first requires phase
`Creation` (panicking "Contract is not in the creation phase!" otherwise) and
then `now ≤ deadline` (panicking "The creation deadline has expired!" when the
deadline has passed), with the failing call leaving the state untouched; in
Rsa.rs, `finalize_creation` checks NEITHER phase nor deadline and succeeds
whenever the two lookups succeed. -/
theorem C4_finalize_deadline_guard :
  (∀ H now s id pa ops sg c,
      alookup s.contracts id = some c → c.phase = .Creation → c.deadline < now →
      Manager.finalize_creation H now s id pa ops sg
        = .error (.panic "The creation deadline has expired!")) ∧
  (∀ H now s id pa ops sg c,
      alookup s.contracts id = some c → c.phase ≠ .Creation →
      Manager.finalize_creation H now s id pa ops sg
        = .error (.panic "Contract is not in the creation phase!")) ∧
  (∀ now s id pa ops sg c cop,
      alookup s.contracts id = some c →
      alookup s.operators c.creation_operator = some cop →
      ∃ s2, ManagerRSA.finalize_creation now s id pa ops sg = .ok s2
        ∧ (alookup s2.contracts id).map ContractInfo.phase = some .Executing) := by
  refine ⟨?_, ?_, ?_⟩
  · intro H now s id pa ops sg c h1 hph hdl
    simp [Manager.finalize_creation, h1, hph, hdl]
  · intro H now s id pa ops sg c h1 hph
    simp [Manager.finalize_creation, h1, hph]
  · intro now s id pa ops sg c cop h1 h2
    refine ⟨_, ManagerRSA.finalize_creation_no_guard now s id pa ops sg c cop h1 h2, ?_⟩
    simp [ManagerRSA.finalizedState, alookup_updA_self s.contracts id _ c h1]

/-- The state just after: register "a" at a fresh Rsa manager, then
`init_creation` at time 100 (so the pool's deadline is 115). -/
def c4mid : Except Failure ManagerRSA :=
  (ManagerRSA.new.register "a" "ta" [] []).bind fun s1 =>
  ManagerRSA.init_creation 100 s1 "a" (List.replicate 32 0) 1

/-- `c4mid` followed by `finalize_creation` at time 116, one second past the
pool's deadline of 115. -/
def c4run : Except Failure ManagerRSA :=
  c4mid.bind fun s2 => ManagerRSA.finalize_creation 116 s2 1 "P" ["a", "b", "c"] [170]

/-- C4, falsifying input for the claim as written: the Rsa.rs pool's deadline
is 115, yet `finalize_creation` called at time 116 > 115 SUCCEEDS and moves the
pool to `Executing` instead of failing with a deadline error and leaving it in
`Creation`. -/
theorem C4_counterexample :
  (okVal c4mid).map (fun s => (alookup s.contracts 1).map fun c => c.deadline)
      = some (some 115)
  ∧ (okVal c4run).map (fun s => (alookup s.contracts 1).map fun c => c.phase)
      = some (some Phase.Executing)
  ∧ 115 < 116 := by
  refine ⟨rfl, rfl, by decide⟩

/-- C5 (amended): `deposit_to_contract` fails with the wrong-phase panic
whenever the phase is not `Executing`; `withdraw` performs NO phase check at
all — whatever the phase, it succeeds exactly when the receiver argument
equals the pool address (there is no caller identity in the source), and
otherwise fails with "Sender is not the pool address!". Both implementations
behave alike on `withdraw`. -/
theorem C5_deposit_withdraw_gating :
  (∀ s id v c,
      alookup (Manager.contracts s) id = some c → c.phase ≠ .Executing →
      Manager.deposit_to_contract s id v
        = .error (.panic "Contract is not in the executing phase!")) ∧
  (∀ s id rcv v c pa,
      alookup (Manager.contracts s) id = some c → c.pool_address = some pa → rcv ≠ pa →
      Manager.withdraw s id rcv v = .error (.panic "Sender is not the pool address!")) ∧
  (∀ s id v c pa,
      alookup (Manager.contracts s) id = some c → c.pool_address = some pa →
      Manager.withdraw s id pa v = .ok s) ∧
  (∀ s id bn v c pa,
      alookup (ManagerRSA.contracts s) id = some c → c.pool_address = some pa →
      ManagerRSA.withdraw s id bn pa v = .ok s) := by
  refine ⟨?_, ?_, ?_, ?_⟩
  · intro s id v c h1 hph
    simp [Manager.deposit_to_contract, h1, hph]
  · intro s id rcv v c pa h1 hpa hne
    simp [Manager.withdraw, h1, hpa, hne]
  · intro s id v c pa h1 hpa
    simp [Manager.withdraw, h1, hpa]
  · intro s id bn v c pa h1 hpa
    simp [ManagerRSA.withdraw, h1, hpa]

/-- The identity function standing in for the external SHA-256 collaborator in
concrete Manager.rs runs (no claim depends on the hash's value). -/
def idH : List Nat → List Nat := fun l => l

/-- A concrete Manager.rs run: create pool 1 at time 100, finalize at 100
(pool address "P", phase `Executing`), then `challenge_executor` at 105, which
moves the pool to `ChallengeExecutor`. -/
def c5mid : Except Failure Manager :=
  (Manager.finalize_creation idH 100
      (Manager.init_creation 100 Manager.new 1 "opA" [18, 52] ["a", "b", "c"])
      1 "P" ["a", "b", "c"] [170]).bind fun m2 =>
    Manager.challenge_executor idH 105 m2 1 [9]

/-- C5, falsifying input for the claim as written: with pool 1 in phase
`ChallengeExecutor` (not `Executing`), `withdraw` to the pool address SUCCEEDS
(and returns the state unchanged) instead of failing with a wrong-phase
error: `withdraw` has no phase guard. -/
theorem C5_counterexample :
  (okVal c5mid).map (fun m => (alookup m.contracts 1).map fun c => c.phase)
      = some (some Phase.ChallengeExecutor)
  ∧ (c5mid.bind fun m => Manager.withdraw m 1 "P" 50) = c5mid := by
  exact ⟨rfl, rfl⟩

/-- C6 (amended): in Rsa.rs, `init_creation` fails on a live id ("Contract
with this ID already exists!", state untouched) and on an unregistered
creation operator ("Creation operator does not exist!"); when the id is free
and the operator registered it succeeds, and the new pool has phase
`Creation`, snapshots `incremental_tx_hash` from the registry's current
incremental hash, and gets `deadline = now + TIMEOUT_INTERVAL`. (Manager.rs's
`init_creation` performs none of these checks — see the counterexample.) -/
theorem C6_init_creation_guards :
  (∀ now s cop ch id c,
      alookup (ManagerRSA.contracts s) id = some c →
      ManagerRSA.init_creation now s cop ch id
        = .error (.panic "Contract with this ID already exists!")) ∧
  (∀ now s cop ch id,
      alookup (ManagerRSA.contracts s) id = none →
      alookup (ManagerRSA.operators s) cop = none →
      ManagerRSA.init_creation now s cop ch id
        = .error (.panic "Creation operator does not exist!")) ∧
  (∀ now s cop ch id op,
      alookup (ManagerRSA.contracts s) id = none →
      alookup (ManagerRSA.operators s) cop = some op →
      ∃ s2, ManagerRSA.init_creation now s cop ch id = .ok s2 ∧
        ∃ c, alookup s2.contracts id = some c ∧
          c.phase = .Creation ∧
          c.incremental_tx_hash = s.operator_incremental_hash ∧
          c.deadline = now + TIMEOUT_INTERVAL) := by
  refine ⟨?_, ?_, ?_⟩
  · intro now s cop ch id c h1
    simp [ManagerRSA.init_creation, h1]
  · intro now s cop ch id h1 h2
    simp [ManagerRSA.init_creation, h1, h2]
  · intro now s cop ch id op h1 h2
    simp only [ManagerRSA.init_creation, h1, h2]
    exact ⟨_, rfl, _, alookup_cons_self _ _ _, rfl, rfl, rfl⟩

/-- Two Manager.rs `init_creation` calls with the SAME id 1: the source has no
id-collision check, so the second silently succeeds. -/
def c6twice : Manager :=
  Manager.init_creation 200
    (Manager.init_creation 100 Manager.new 1 "a" [1] ["x", "y", "z"])
    1 "b" [2] ["p", "q", "r"]

/-- C6, falsifying input for the claim as written: in Manager.rs, a second
`init_creation` with the already-live id 1 does not fail with a pool-exists
error — it cannot fail at all — and it OVERWRITES the live pool's record (the
creation operator visibly changes from "a" to "b", the deadline from 115 to
215). -/
theorem C6_counterexample :
  (alookup (Manager.init_creation 100 Manager.new 1 "a" [1] ["x", "y", "z"]).contracts 1).map
      (fun c => (c.creation_operator, c.deadline)) = some ("a", 115)
  ∧ (alookup c6twice.contracts 1).map (fun c => (c.creation_operator, c.deadline))
      = some ("b", 215) := by
  exact ⟨rfl, rfl⟩

/-- The contract record `ManagerRSA::challenge_executor` writes. -/
def ManagerRSA.challengedContract (now : Nat) (msg : List Nat) (c : ContractInfo) :
    ContractInfo :=
  { c with
    phase := .ChallengeExecutor,
    deadline := now + TIMEOUT_INTERVAL,
    watchdogs_challenged := 0,
    exec_challenge_hash := ManagerRSA.hash_message msg }

/-- C3: from a pool in phase `Executing` (Rsa.rs), `challenge_executor` at
time `now` succeeds, and the pool then has phase `ChallengeExecutor`,
`exec_challenge_hash = hash_message message`, `deadline = now +
TIMEOUT_INTERVAL` and the aggregate watchdog-challenge counter
`watchdogs_challenged` reset to 0; a subsequent `executor_response` at any
time `t ≤ now + TIMEOUT_INTERVAL` (its signature checked against the
executive operator resolved through the registry — and accepted, the
verifier being the repository's stub) succeeds and returns the pool to
`Executing`: a round trip. -/
theorem C3_challenge_round_trip (now t : Nat) (s : ManagerRSA) (id : Nat) (c : ContractInfo)
    (msg resp sg : List Nat) (addr : String) (eop : Operator)
    (h1 : alookup s.contracts id = some c)
    (h2 : c.phase = .Executing)
    (h3 : c.operators[c.executive_operator]? = some (some addr))
    (h4 : alookup s.operators addr = some eop)
    (h5 : t ≤ now + TIMEOUT_INTERVAL) :
    ∃ s1, ManagerRSA.challenge_executor now s id msg = .ok s1 ∧
      (∃ c1, alookup s1.contracts id = some c1 ∧
        c1.phase = .ChallengeExecutor ∧
        c1.exec_challenge_hash = ManagerRSA.hash_message msg ∧
        c1.deadline = now + TIMEOUT_INTERVAL ∧
        c1.watchdogs_challenged = 0) ∧
      ∃ s2, ManagerRSA.executor_response t s1 id resp sg = .ok s2 ∧
        (alookup s2.contracts id).map ContractInfo.phase = some .Executing := by
  have hch : ManagerRSA.challenge_executor now s id msg
      = .ok { s with contracts := updA s.contracts id (ManagerRSA.challengedContract now msg c) } := by
    simp [ManagerRSA.challenge_executor, h1, h2, ManagerRSA.challengedContract]
  refine ⟨_, hch, ?_, ?_⟩
  · refine ⟨ManagerRSA.challengedContract now msg c, ?_, rfl, rfl, rfl, rfl⟩
    exact alookup_updA_self s.contracts id _ c h1
  · have hl1 : alookup (updA s.contracts id (ManagerRSA.challengedContract now msg c)) id
        = some (ManagerRSA.challengedContract now msg c) :=
      alookup_updA_self s.contracts id _ c h1
    have hdl2 : ¬ now + TIMEOUT_INTERVAL < t := by omega
    have hresp : ManagerRSA.executor_response t { s with contracts := updA s.contracts id (ManagerRSA.challengedContract now msg c) } id resp sg = .ok { s with contracts := updA (updA s.contracts id (ManagerRSA.challengedContract now msg c)) id ({ ManagerRSA.challengedContract now msg c with phase := .Executing }) } := by
      simp only [ManagerRSA.executor_response, hl1]
      simp [ManagerRSA.challengedContract, hdl2, h3, h4, ManagerRSA.verify_signature]
    have hl2 : alookup (updA (updA s.contracts id (ManagerRSA.challengedContract now msg c)) id ({ ManagerRSA.challengedContract now msg c with phase := .Executing })) id = some ({ ManagerRSA.challengedContract now msg c with phase := .Executing }) :=
      alookup_updA_self _ id _ _ hl1
    exact ⟨_, hresp, by simp [hl2]⟩

/-- A concrete Rsa.rs pool record in phase `Executing` (registry epoch "a",
pool address "P", executive slot 0 held by operator "a"). -/
def c3contract : ContractInfo :=
  { phase := .Executing,
    incremental_tx_hash := strBytes "a",
    pool_address := some "P",
    creation_operator := "a",
    operators := [some "a", some "b", some "c"],
    executive_operator := 0,
    code_hash := List.replicate 32 0,
    fallback_phase := .None,
    watchdogs_challenged := 0,
    exec_challenge_hash := [],
    watchdog_challenge_hash := [],
    challenged_watchdogs := [0, 0, 0],
    deadline := 115 }

/-- A concrete Rsa.rs manager holding `c3contract` as pool 1, with operators
"a", "b", "c" registered. -/
def c3state : ManagerRSA :=
  { operators :=
      [("a", { initialized := true, tee_signature_address := "ta", tee_encryption_key := [] }),
       ("b", { initialized := true, tee_signature_address := "tb", tee_encryption_key := [] }),
       ("c", { initialized := true, tee_signature_address := "tc", tee_encryption_key := [] })],
    operator_list := ["a", "b", "c"],
    operator_incremental_hash := strBytes "a" ++ strBytes "b" ++ strBytes "c",
    contracts := [(1, c3contract)] }

/-- C3 at a concrete input: pool 1 of `c3state`, challenged at time 100 and
answered at time 110 ≤ 115. -/
theorem C3_witness :
    ∃ s1, ManagerRSA.challenge_executor 100 c3state 1 [5] = .ok s1 ∧
      (∃ c1, alookup s1.contracts 1 = some c1 ∧
        c1.phase = .ChallengeExecutor ∧
        c1.exec_challenge_hash = ManagerRSA.hash_message [5] ∧
        c1.deadline = 100 + TIMEOUT_INTERVAL ∧
        c1.watchdogs_challenged = 0) ∧
      ∃ s2, ManagerRSA.executor_response 110 s1 1 [6] [7] = .ok s2 ∧
        (alookup s2.contracts 1).map ContractInfo.phase = some .Executing :=
  C3_challenge_round_trip 100 110 c3state 1 c3contract [5] [6] [7] "a"
    { initialized := true, tee_signature_address := "ta", tee_encryption_key := [] }
    (by decide) (by decide) (by decide) (by decide) (by decide)

/-- The contract record the spec-modelled `challenge_watchdog` writes. -/
def ManagerRSA.watchdoggedContract (now slot : Nat) (msg : List Nat) (c : ContractInfo) :
    ContractInfo :=
  { c with
    phase := .ChallengeWatchdog,
    fallback_phase := c.phase,
    watchdog_challenge_hash := ManagerRSA.hash_message msg,
    challenged_watchdogs := c.challenged_watchdogs.set slot (c.challenged_watchdogs.getD slot 0 + 1),
    watchdogs_challenged := c.watchdogs_challenged + 1,
    deadline := now + TIMEOUT_INTERVAL }

/-- C8: on a pool in phase `ChallengeExecutor`, `challenge_watchdog` against a
valid non-executive slot succeeds, setting `fallback_phase = ChallengeExecutor`
and phase `ChallengeWatchdog` while leaving `exec_challenge_hash` untouched;
a `watchdog_response` for that slot at any time `t ≤ now + TIMEOUT_INTERVAL`
(signature resolved through the registry and accepted by the repository's stub
verifier) then restores phase `ChallengeExecutor` with the original
`exec_challenge_hash` intact and `fallback_phase` reset to `None`. Both
operations are modelled from the spec, their code being absent from src/. -/
theorem C8_watchdog_nesting (now t : Nat) (s : ManagerRSA) (id slot : Nat) (c : ContractInfo)
    (msg resp sg : List Nat) (waddr : String) (wop : Operator)
    (h1 : alookup s.contracts id = some c)
    (h2 : c.phase = .ChallengeExecutor)
    (h3 : slot < POOL_SIZE)
    (h4 : slot ≠ c.executive_operator)
    (h5 : c.operators.getD slot none = some waddr)
    (h6 : alookup s.operators waddr = some wop)
    (h7 : t ≤ now + TIMEOUT_INTERVAL) :
    ∃ s1, ManagerRSA.challenge_watchdog now s id slot msg = .ok s1 ∧
      (∃ c1, alookup s1.contracts id = some c1 ∧
        c1.phase = .ChallengeWatchdog ∧
        c1.fallback_phase = .ChallengeExecutor ∧
        c1.exec_challenge_hash = c.exec_challenge_hash ∧
        c1.watchdog_challenge_hash = ManagerRSA.hash_message msg) ∧
      ∃ s2, ManagerRSA.watchdog_response t s1 id slot resp sg = .ok s2 ∧
        ∃ c2, alookup s2.contracts id = some c2 ∧
          c2.phase = .ChallengeExecutor ∧
          c2.exec_challenge_hash = c.exec_challenge_hash ∧
          c2.fallback_phase = .None := by
  have hcw : ManagerRSA.challenge_watchdog now s id slot msg
      = .ok { s with contracts := updA s.contracts id (ManagerRSA.watchdoggedContract now slot msg c) } := by
    simp [ManagerRSA.challenge_watchdog, h1, h2, h3, h4, ManagerRSA.watchdoggedContract]
  have hl1 : alookup (updA s.contracts id (ManagerRSA.watchdoggedContract now slot msg c)) id
      = some (ManagerRSA.watchdoggedContract now slot msg c) :=
    alookup_updA_self s.contracts id _ c h1
  have hdl2 : ¬ now + TIMEOUT_INTERVAL < t := by omega
  refine ⟨_, hcw, ?_, ?_⟩
  · refine ⟨ManagerRSA.watchdoggedContract now slot msg c, hl1, rfl, ?_, rfl, rfl⟩
    simp [ManagerRSA.watchdoggedContract, h2]
  · have hresp : ManagerRSA.watchdog_response t { s with contracts := updA s.contracts id (ManagerRSA.watchdoggedContract now slot msg c) } id slot resp sg = .ok { s with contracts := updA (updA s.contracts id (ManagerRSA.watchdoggedContract now slot msg c)) id ({ ManagerRSA.watchdoggedContract now slot msg c with phase := .ChallengeExecutor, fallback_phase := .None, watchdog_challenge_hash := [] }) } := by
      have h5x : (c.operators[slot]?).getD none = some waddr := by
        simpa [List.getD] using h5
      simp only [ManagerRSA.watchdog_response, hl1]
      simp [ManagerRSA.watchdoggedContract, hdl2, h3, h4, h5x, h6,
        ManagerRSA.verify_signature, h2]
    have hl2 : alookup (updA (updA s.contracts id (ManagerRSA.watchdoggedContract now slot msg c)) id ({ ManagerRSA.watchdoggedContract now slot msg c with phase := .ChallengeExecutor, fallback_phase := .None, watchdog_challenge_hash := [] })) id = some ({ ManagerRSA.watchdoggedContract now slot msg c with phase := .ChallengeExecutor, fallback_phase := .None, watchdog_challenge_hash := [] }) :=
      alookup_updA_self _ id _ _ hl1
    exact ⟨_, hresp, _, hl2, rfl, rfl, rfl⟩

/-- A concrete pool in phase `ChallengeExecutor` with an outstanding executor
challenge hash [42], inside `c3state`'s registry. -/
def c8contract : ContractInfo :=
  { c3contract with phase := .ChallengeExecutor, exec_challenge_hash := [42], deadline := 115 }

/-- `c3state` with pool 1 replaced by `c8contract`. -/
def c8state : ManagerRSA :=
  { c3state with contracts := [(1, c8contract)] }

/-- C8 at a concrete input: watchdog slot 1 ("b") of pool 1 is challenged at
time 100 and answers at time 110; the original `exec_challenge_hash` [42]
survives the nested dispute. -/
theorem C8_witness :
    ∃ s1, ManagerRSA.challenge_watchdog 100 c8state 1 1 [9] = .ok s1 ∧
      (∃ c1, alookup s1.contracts 1 = some c1 ∧
        c1.phase = .ChallengeWatchdog ∧
        c1.fallback_phase = .ChallengeExecutor ∧
        c1.exec_challenge_hash = c8contract.exec_challenge_hash ∧
        c1.watchdog_challenge_hash = ManagerRSA.hash_message [9]) ∧
      ∃ s2, ManagerRSA.watchdog_response 110 s1 1 1 [10] [11] = .ok s2 ∧
        ∃ c2, alookup s2.contracts 1 = some c2 ∧
          c2.phase = .ChallengeExecutor ∧
          c2.exec_challenge_hash = c8contract.exec_challenge_hash ∧
          c2.fallback_phase = .None :=
  C8_watchdog_nesting 100 110 c8state 1 1 c8contract [9] [10] [11] "b"
    { initialized := true, tee_signature_address := "tb", tee_encryption_key := [] }
    (by decide) (by decide) (by decide) (by decide) (by decide) (by decide) (by decide)

/-- C7 (amended): on an Rsa.rs pool in phase `Crashed`, `deposit_to_contract`,
`challenge_executor`, `executor_response` and the spec-modelled
`challenge_watchdog` / `watchdog_response` all fail with their wrong-phase
errors and leave the state untouched — but `withdraw` has no phase guard and
SUCCEEDS whenever the receiver equals the pool address, and
`finalize_creation` has no phase guard either and moves the crashed pool back
to `Executing`: `Crashed` is not terminal as implemented. -/
theorem C7_crashed_not_terminal :
  (∀ s id v c, alookup (ManagerRSA.contracts s) id = some c → c.phase = .Crashed →
      ManagerRSA.deposit_to_contract s id v
        = .error (.panic "Contract is not in phase EXECUTING!")) ∧
  (∀ now s id msg c, alookup (ManagerRSA.contracts s) id = some c → c.phase = .Crashed →
      ManagerRSA.challenge_executor now s id msg
        = .error (.panic "Contract is not in phase EXECUTING!")) ∧
  (∀ now s id r sg c, alookup (ManagerRSA.contracts s) id = some c → c.phase = .Crashed →
      ManagerRSA.executor_response now s id r sg
        = .error (.panic "Challenge can only be answered if unresolved!")) ∧
  (∀ now s id slot msg c, alookup (ManagerRSA.contracts s) id = some c → c.phase = .Crashed →
      ManagerRSA.challenge_watchdog now s id slot msg = .error (.typed .WrongPhase)) ∧
  (∀ now s id slot r sg c, alookup (ManagerRSA.contracts s) id = some c → c.phase = .Crashed →
      ManagerRSA.watchdog_response now s id slot r sg = .error (.typed .WrongPhase)) ∧
  (∀ s id bn v c pa, alookup (ManagerRSA.contracts s) id = some c → c.phase = .Crashed →
      c.pool_address = some pa → ManagerRSA.withdraw s id bn pa v = .ok s) ∧
  (∀ now s id pa ops sg c cop, alookup (ManagerRSA.contracts s) id = some c →
      c.phase = .Crashed → alookup (ManagerRSA.operators s) c.creation_operator = some cop →
      ∃ s2, ManagerRSA.finalize_creation now s id pa ops sg = .ok s2 ∧
        (alookup s2.contracts id).map ContractInfo.phase = some .Executing) := by
  refine ⟨?_, ?_, ?_, ?_, ?_, ?_, ?_⟩
  · intro s id v c h1 hph
    simp [ManagerRSA.deposit_to_contract, h1, hph]
  · intro now s id msg c h1 hph
    simp [ManagerRSA.challenge_executor, h1, hph]
  · intro now s id r sg c h1 hph
    simp [ManagerRSA.executor_response, h1, hph]
  · intro now s id slot msg c h1 hph
    simp [ManagerRSA.challenge_watchdog, h1, hph]
  · intro now s id slot r sg c h1 hph
    simp [ManagerRSA.watchdog_response, h1, hph]
  · intro s id bn v c pa h1 hph hpa
    simp [ManagerRSA.withdraw, h1, hpa]
  · intro now s id pa ops sg c cop h1 hph h2
    refine ⟨_, ManagerRSA.finalize_creation_no_guard now s id pa ops sg c cop h1 h2, ?_⟩
    simp [ManagerRSA.finalizedState, alookup_updA_self s.contracts id _ c h1]

/-- `c3state`'s pool 1 frozen in phase `Crashed`. -/
def c7contract : ContractInfo := { c3contract with phase := .Crashed }

/-- An Rsa.rs manager whose pool 1 is `Crashed`. -/
def c7state : ManagerRSA := { c3state with contracts := [(1, c7contract)] }

/-- C7, falsifying input for the claim as written: on the `Crashed` pool 1,
`withdraw` to the pool address SUCCEEDS (no phase guard) instead of failing
with a wrong-phase error, and `finalize_creation` SUCCEEDS and moves the pool
from `Crashed` back to `Executing` — so `Crashed` is escapable. -/
theorem C7_counterexample :
  c7contract.phase = Phase.Crashed
  ∧ ManagerRSA.withdraw c7state 1 0 "P" 5 = .ok c7state
  ∧ (okVal (ManagerRSA.finalize_creation 200 c7state 1 "P2" ["a", "b", "c"] [1])).map
      (fun s => (alookup s.contracts 1).map fun c => c.phase)
      = some (some Phase.Executing) := by
  exact ⟨rfl, rfl, rfl⟩

/-- C9 (amended): every expected failure condition in src/ is signalled by a
Rust `panic!` (or `expect`/`unwrap`) carrying a message — duplicate
registration, unknown pool id, wrong phase, expired deadline petitions and a
wrong receiver all panic; no typed error value is ever returned by the code
under src/ (the `Failure.typed` constructor is used only by the two
operations modelled from the spec). -/
theorem C9_expected_failures_panic :
  (∀ s a t k g op, alookup (ManagerRSA.operators s) a = some op →
      ManagerRSA.register s a t k g = .error (.panic "Operator already registered!")) ∧
  (∀ s id v, alookup (Manager.contracts s) id = none →
      Manager.deposit_to_contract s id v = .error (.panic "Contract not found")) ∧
  (∀ H now s id pa ops sg c, alookup (Manager.contracts s) id = some c →
      c.phase ≠ .Creation →
      Manager.finalize_creation H now s id pa ops sg
        = .error (.panic "Contract is not in the creation phase!")) ∧
  (∀ now s id r sg c, alookup (ManagerRSA.contracts s) id = some c →
      c.phase = .ChallengeExecutor → c.deadline < now →
      ManagerRSA.executor_response now s id r sg
        = .error (.panic "Response deadline has expired!")) ∧
  (∀ s id bn rcv v c pa, alookup (ManagerRSA.contracts s) id = some c →
      c.pool_address = some pa → pa ≠ rcv →
      ManagerRSA.withdraw s id bn rcv v
        = .error (.panic "Sender is not the pool address!")) := by
  refine ⟨?_, ?_, ?_, ?_, ?_⟩
  · intro s a t k g op h1
    simp [ManagerRSA.register, h1]
  · intro s id v h1
    simp [Manager.deposit_to_contract, h1]
  · intro H now s id pa ops sg c h1 hph
    simp [Manager.finalize_creation, h1, hph]
  · intro now s id r sg c h1 hph hdl
    simp [ManagerRSA.executor_response, h1, hph, hdl]
  · intro s id bn rcv v c pa h1 hpa hne
    simp [ManagerRSA.withdraw, h1, hpa, hne]

/-- C9, falsifying input for the claim as written: re-registering "a" does not
return an `AlreadyRegistered`-style error value — the run aborts with the
panic "Operator already registered!" — and depositing to an unknown pool id
aborts with the `expect` panic "Contract not found". -/
theorem C9_counterexample :
  (ManagerRSA.new.register "a" "ta" [] []).bind (fun s2 => s2.register "a" "tb" [] [])
      = .error (.panic "Operator already registered!")
  ∧ Manager.deposit_to_contract Manager.new 1 5 = .error (.panic "Contract not found") := by
  exact ⟨rfl, rfl⟩
